import Mathlib

/-!
Verification of the Discord gateway client (class DiscordGateway).

The embedding models the mutable session state of the class and each of its
methods as a pure function from state to state together with a list of
observable effects (frames sent, log lines, delays awaited, re-invocations of
connect scheduled).  JavaScript values that flow through the payload handlers
are modelled by the inductive type JVal, which distinguishes undefined from
null: the source compares fields against null with strict (in)equality, so the
distinction is semantically relevant.  Methods that can throw a TypeError
(destructuring or property access on a nullish value) additionally return an
Option JsErr component; a some value models an exception escaping the method,
which for the async payload path surfaces as an unhandled promise rejection
because the message handler does not await handlePayload.
-/

/-- JavaScript values as they appear in gateway payloads: undefined, null,
numbers, strings and objects (association lists of fields). -/
inductive JVal where
  | undefined : JVal
  | jnull : JVal
  | jnum (n : Int) : JVal
  | jstr (s : String) : JVal
  | jobj (fields : List (String × JVal)) : JVal

/-- Strict comparison with null, as in the source test s !== null. -/
def JVal.isNull : JVal → Bool
  | .jnull => true
  | _ => false

/-- A value is nullish (null or undefined); destructuring or property access on
such a value throws a TypeError in JavaScript. -/
def JVal.isNullish : JVal → Bool
  | .jnull => true
  | .undefined => true
  | _ => false

/-- Strict equality test of a value against a number literal, as in the
switch cases on the opcode. -/
def JVal.eqNum : JVal → Int → Bool
  | .jnum m, n => m == n
  | _, _ => false

/-- Strict equality test of a value against a string literal, as in the
switch cases on the dispatch event name. -/
def JVal.eqStr : JVal → String → Bool
  | .jstr a, b => a == b
  | _, _ => false

/-- Non-throwing field access: destructuring a non-nullish value yields the
field when the value is an object with that field, and undefined otherwise. -/
def jsField (v : JVal) (k : String) : JVal :=
  match v with
  | .jobj fields =>
    match fields.lookup k with
    | some x => x
    | none => .undefined
  | _ => .undefined

/-- A thrown JavaScript error; the handlers only ever throw TypeError, from
destructuring or property access on a nullish value. -/
inductive JsErr where
  | typeError : JsErr
  deriving DecidableEq, Repr

/-- The readyState of a WebSocket instance. -/
inductive ReadyState where
  | connecting : ReadyState
  | opened : ReadyState
  | closing : ReadyState
  | closed : ReadyState
  deriving DecidableEq, BEq, Repr

/-- Observable effects of a method run, in program order: console output,
frames handed to ws.send, awaited delays (setTimeout from timers/promises),
re-invocations of the full connect procedure, and ws.close calls. -/
inductive Effect where
  | logStr (msg : String) : Effect
  | send (frame : JVal) : Effect
  | wait (ms : Nat) : Effect
  | invokeConnect : Effect
  | closeWs : Effect

/-- The mutable instance state of the DiscordGateway class.  The field
heartbeatInterval stores the timer handle last assigned (it is not cleared by
clearInterval, matching the source); activeTimers is the set of interval
timers that are currently scheduled, as a list of handle and period pairs;
nextTimer supplies fresh timer handles. -/
structure GatewayState where
  ws : Option ReadyState
  sequence : JVal
  heartbeatInterval : Option Nat
  activeTimers : List (Nat × JVal)
  nextTimer : Nat
  sessionId : JVal
  reconnectAttempts : Nat

/-- Field initializers of the class: no socket, null sequence, no timer,
null session id, zero reconnect attempts. -/
def initialState : GatewayState :=
  { ws := none
    sequence := .jnull
    heartbeatInterval := none
    activeTimers := []
    nextTimer := 0
    sessionId := .jnull
    reconnectAttempts := 0 }

/-- MAX_RECONNECT_ATTEMPTS in the source. -/
def MAX_RECONNECT_ATTEMPTS : Nat := 5

/-- True when this.ws is set and its readyState is OPEN, the guard used by
sendHeartbeat and identify. -/
def wsOpen (st : GatewayState) : Bool :=
  match st.ws with
  | some w => w == ReadyState.opened
  | none => false

/-- The body of the guard pattern used by handleInvalidSession and disconnect:
if this.heartbeatInterval is truthy, clearInterval it.  The stored handle is
cancelled from the active timers; the field itself is not reset, as in the
source. -/
def clearHeartbeatIfSet (st : GatewayState) : GatewayState :=
  match st.heartbeatInterval with
  | some h => { st with activeTimers := st.activeTimers.filter (fun x => x.1 != h) }
  | none => st

/-- startHeartbeat: clearInterval the previous timer when one handle is
stored, then setInterval a fresh timer at the given interval and store its
handle. -/
def startHeartbeat (interval : JVal) (st : GatewayState) : GatewayState :=
  let st1 := clearHeartbeatIfSet st
  { st1 with
    activeTimers := st1.activeTimers ++ [(st1.nextTimer, interval)]
    heartbeatInterval := some st1.nextTimer
    nextTimer := st1.nextTimer + 1 }

/-- The outbound HEARTBEAT payload: op HEARTBEAT (1) and the stored sequence
number as d. -/
def heartbeatFrame (st : GatewayState) : JVal :=
  .jobj [("op", .jnum 1), ("d", st.sequence)]

/-- sendHeartbeat: a no-op unless the socket exists and is OPEN; otherwise
send the heartbeat payload and log. -/
def sendHeartbeat (st : GatewayState) : GatewayState × List Effect :=
  if wsOpen st then
    (st, [.send (heartbeatFrame st), .logStr "Heartbeat sent"])
  else
    (st, [])

/-- The outbound IDENTIFY payload: token, intents 513 and the static
properties object, with os taken from process.platform. -/
def identifyFrame (token os : String) : JVal :=
  .jobj [("op", .jnum 2),
         ("d", .jobj [("token", .jstr token),
                      ("intents", .jnum 513),
                      ("properties", .jobj [("os", .jstr os),
                                            ("browser", .jstr "discord_gateway"),
                                            ("device", .jstr "discord_gateway")])])]

/-- identify: a no-op unless the socket exists and is OPEN; otherwise send the
IDENTIFY payload. -/
def identify (token os : String) (st : GatewayState) : GatewayState × List Effect :=
  if wsOpen st then
    (st, [.send (identifyFrame token os)])
  else
    (st, [])

/-- handleHello: destructure heartbeat_interval from the payload data (throws
a TypeError when the data is nullish), start the heartbeat at that interval
and send IDENTIFY. -/
def handleHello (token os : String) (d : JVal) (st : GatewayState) :
    GatewayState × List Effect × Option JsErr :=
  if d.isNullish then
    (st, [], some .typeError)
  else
    let st1 := startHeartbeat (jsField d "heartbeat_interval") st
    let r := identify token os st1
    (r.1, r.2, none)

/-- handleInvalidSession: clearInterval the heartbeat timer when a handle is
stored, await a fixed 5000 ms delay and re-invoke connect. -/
def handleInvalidSession (st : GatewayState) : GatewayState × List Effect :=
  (clearHeartbeatIfSet st, [.wait 5000, .invokeConnect])

/-- handleDispatch: on the READY event capture d.session_id (property access
throws a TypeError when d is nullish); any other event name is logged. -/
def handleDispatch (t d : JVal) (st : GatewayState) :
    GatewayState × List Effect × Option JsErr :=
  if t.eqStr "READY" then
    if d.isNullish then
      (st, [], some .typeError)
    else
      ({ st with sessionId := jsField d "session_id" }, [.logStr "Bot is ready!"], none)
  else
    (st, [.logStr "Received dispatch event"], none)

/-- handlePayload: destructure op, d, s and t from the payload (throws when
the payload itself is nullish), update the sequence number whenever the s
slot is not strictly null, then dispatch on the opcode. -/
def handlePayload (token os : String) (p : JVal) (st : GatewayState) :
    GatewayState × List Effect × Option JsErr :=
  if p.isNullish then
    (st, [], some .typeError)
  else
    let op := jsField p "op"
    let d := jsField p "d"
    let sv := jsField p "s"
    let t := jsField p "t"
    let st1 := if sv.isNull then st else { st with sequence := sv }
    if op.eqNum 10 then
      handleHello token os d st1
    else if op.eqNum 11 then
      (st1, [.logStr "Received heartbeat acknowledgement"], none)
    else if op.eqNum 9 then
      let r := handleInvalidSession st1
      (r.1, .logStr "Session invalidated" :: r.2, none)
    else if op.eqNum 0 then
      handleDispatch t d st1
    else
      (st1, [.logStr "Unhandled op code"], none)

/-- handleReconnect: when the attempt counter has reached the maximum, log and
return without scheduling anything; otherwise increment the counter, compute
the exponential backoff delay, await it and re-invoke connect. -/
def handleReconnect (st : GatewayState) : GatewayState × List Effect :=
  if MAX_RECONNECT_ATTEMPTS ≤ st.reconnectAttempts then
    (st, [.logStr "Max reconnection attempts reached"])
  else
    let st1 := { st with reconnectAttempts := st.reconnectAttempts + 1 }
    let delay := min (1000 * 2 ^ st1.reconnectAttempts) 30000
    (st1, [.logStr "Attempting to reconnect", .wait delay, .invokeConnect])

/-- connect: construct a fresh WebSocket and install its handlers; when the
constructor throws, log the failure and run handleReconnect.  The ctorFails
flag models whether the WebSocket constructor throws. -/
def connect (st : GatewayState) (ctorFails : Bool) : GatewayState × List Effect :=
  if ctorFails then
    let r := handleReconnect st
    (r.1, .logStr "Failed to connect to Discord Gateway" :: r.2)
  else
    ({ st with ws := some .connecting }, [])

/-- disconnect: clearInterval the heartbeat timer when a handle is stored and
close the socket when one is present. -/
def disconnect (st : GatewayState) : GatewayState × List Effect :=
  match (clearHeartbeatIfSet st).ws with
  | some _ => ({ clearHeartbeatIfSet st with ws := some .closing }, [.closeWs])
  | none => (clearHeartbeatIfSet st, [])

/-- The ws error event handler: it only logs the error. -/
def onError (st : GatewayState) : GatewayState × List Effect :=
  (st, [.logStr "WebSocket error"])

/-- The ws close event handler: log the close and run handleReconnect. -/
def onClose (st : GatewayState) : GatewayState × List Effect :=
  let r := handleReconnect st
  (r.1, .logStr "Connection closed" :: r.2)

/-- The outcome of JSON.parse over the raw frame text, supplied by the
external JSON library. -/
inductive ParseResult where
  | ok (v : JVal) : ParseResult
  | parseError : ParseResult

/-- The ws message event handler: a parse failure is caught and logged; a
successfully parsed payload is handed to handlePayload, whose returned call is
not awaited, so an error thrown inside it escapes the try block as an
unhandled promise rejection (the third component). -/
def onMessage (token os : String) (pr : ParseResult) (st : GatewayState) :
    GatewayState × List Effect × Option JsErr :=
  match pr with
  | .parseError => (st, [.logStr "Failed to parse message"], none)
  | .ok p => handlePayload token os p st

/-- Well-formedness of the timer bookkeeping, true of every reachable state:
either no interval timer is scheduled, or exactly one is and its handle is the
one stored in the heartbeatInterval field. -/
def wfTimers (st : GatewayState) : Prop :=
  st.activeTimers = [] ∨
  ∃ h p, st.activeTimers = [(h, p)] ∧ st.heartbeatInterval = some h

/-! Helper lemmas about the state components that the individual handlers
leave untouched. -/

theorem clearHeartbeatIfSet_sequence (st : GatewayState) :
    (clearHeartbeatIfSet st).sequence = st.sequence := by
  unfold clearHeartbeatIfSet
  cases st.heartbeatInterval <;> rfl

theorem clearHeartbeatIfSet_ws (st : GatewayState) :
    (clearHeartbeatIfSet st).ws = st.ws := by
  unfold clearHeartbeatIfSet
  cases st.heartbeatInterval <;> rfl

theorem clearHeartbeatIfSet_nextTimer (st : GatewayState) :
    (clearHeartbeatIfSet st).nextTimer = st.nextTimer := by
  unfold clearHeartbeatIfSet
  cases st.heartbeatInterval <;> rfl

theorem clearHeartbeatIfSet_reconnectAttempts (st : GatewayState) :
    (clearHeartbeatIfSet st).reconnectAttempts = st.reconnectAttempts := by
  unfold clearHeartbeatIfSet
  cases st.heartbeatInterval <;> rfl

theorem clearHeartbeatIfSet_active (st : GatewayState) (hwf : wfTimers st) :
    (clearHeartbeatIfSet st).activeTimers = [] := by
  unfold clearHeartbeatIfSet
  rcases hwf with h | ⟨h, p, ht, hf⟩
  · cases hfi : st.heartbeatInterval <;> simp [hfi, h]
  · rw [hf]
    simp [ht]

theorem startHeartbeat_sequence (i : JVal) (st : GatewayState) :
    (startHeartbeat i st).sequence = st.sequence := by
  unfold startHeartbeat
  simp [clearHeartbeatIfSet_sequence]

theorem startHeartbeat_ws (i : JVal) (st : GatewayState) :
    (startHeartbeat i st).ws = st.ws := by
  unfold startHeartbeat
  simp [clearHeartbeatIfSet_ws]

theorem identify_state (tok os : String) (st : GatewayState) :
    (identify tok os st).1 = st := by
  unfold identify
  split <;> rfl

theorem handleHello_sequence (tok os : String) (d : JVal) (st : GatewayState) :
    ((handleHello tok os d st).1).sequence = st.sequence := by
  unfold handleHello
  split
  · rfl
  · simp [identify_state, startHeartbeat_sequence]

theorem handleDispatch_sequence (t d : JVal) (st : GatewayState) :
    ((handleDispatch t d st).1).sequence = st.sequence := by
  unfold handleDispatch
  split
  · split <;> rfl
  · rfl

theorem handleInvalidSession_sequence (st : GatewayState) :
    ((handleInvalidSession st).1).sequence = st.sequence := by
  simp [handleInvalidSession, clearHeartbeatIfSet_sequence]

/-- Reconnect counter facts used by several claims. -/
theorem handleReconnect_counter (st : GatewayState) :
    st.reconnectAttempts ≤ (handleReconnect st).1.reconnectAttempts := by
  unfold handleReconnect
  split
  · exact Nat.le_refl _
  · exact Nat.le_succ _

/-- C3: when a transport failure is handled with the attempt counter at k
below the maximum of 5, the counter becomes exactly k plus one and the
handler awaits a backoff delay of min (1000 * 2 ^ (k + 1)) 30000 milliseconds
before re-invoking the full connect procedure. -/
theorem c3_backoff_increment_and_delay (st : GatewayState) (k : Nat)
    (hk : st.reconnectAttempts = k) (h5 : k < 5) :
    (handleReconnect st).1.reconnectAttempts = k + 1 ∧
    (handleReconnect st).2 =
      [Effect.logStr "Attempting to reconnect",
       Effect.wait (min (1000 * 2 ^ (k + 1)) 30000),
       Effect.invokeConnect] := by
  have h : ¬ (MAX_RECONNECT_ATTEMPTS ≤ st.reconnectAttempts) := by
    rw [hk]
    unfold MAX_RECONNECT_ATTEMPTS
    omega
  unfold handleReconnect
  rw [if_neg h, hk]
  exact ⟨rfl, rfl⟩

/-- Witness for C3 at the spec scenario: two prior attempts, so the next
attempt is number three and the delay evaluates to 8000 ms. -/
theorem c3_backoff_witness :
    ((handleReconnect { initialState with reconnectAttempts := 2 }).1.reconnectAttempts = 2 + 1 ∧
     (handleReconnect { initialState with reconnectAttempts := 2 }).2 =
       [Effect.logStr "Attempting to reconnect",
        Effect.wait (min (1000 * 2 ^ (2 + 1)) 30000),
        Effect.invokeConnect]) ∧
    min (1000 * 2 ^ (2 + 1)) 30000 = 8000 :=
  ⟨c3_backoff_increment_and_delay { initialState with reconnectAttempts := 2 } 2 rfl (by decide),
   by decide⟩

/-- C4: when handleReconnect runs with the counter at the maximum of 5 or
above, the state is returned unchanged (in particular the counter is not
reset) and the only effect is a log line: no delay is awaited and no connect
is scheduled. -/
theorem c4_abandon_at_max (st : GatewayState)
    (h : MAX_RECONNECT_ATTEMPTS ≤ st.reconnectAttempts) :
    handleReconnect st = (st, [Effect.logStr "Max reconnection attempts reached"]) := by
  unfold handleReconnect
  rw [if_pos h]

/-- Witness for C4 at a state with five recorded attempts. -/
theorem c4_abandon_witness :
    handleReconnect { initialState with reconnectAttempts := 5 } =
      ({ initialState with reconnectAttempts := 5 },
       [Effect.logStr "Max reconnection attempts reached"]) :=
  c4_abandon_at_max { initialState with reconnectAttempts := 5 } (by decide)

/-- C8: a heartbeat tick never changes the session state (so the timer it
runs on stays active), and it emits exactly one frame, the object with op 1
and the stored sequence number as d, exactly when the transport is open;
otherwise the tick is a no-op. -/
theorem c8_heartbeat_tick (st : GatewayState) :
    (sendHeartbeat st).1 = st ∧
    (sendHeartbeat st).2 =
      (if wsOpen st then
        [Effect.send (JVal.jobj [("op", JVal.jnum 1), ("d", st.sequence)]),
         Effect.logStr "Heartbeat sent"]
      else []) := by
  unfold sendHeartbeat heartbeatFrame
  split <;> exact ⟨rfl, rfl⟩

/-- A session state in which three reconnect attempts have already been
recorded, used to exhibit that connect does not reset the counter. -/
def threeAttemptsState : GatewayState :=
  { initialState with reconnectAttempts := 3 }

/-- C2 counterexample: a fresh successful connect invocation on a state with
three recorded attempts leaves the counter at 3, refuting the claim that
every connect invocation resets it to 0. -/
theorem c2_counterexample :
    threeAttemptsState.reconnectAttempts = 3 ∧
    (connect threeAttemptsState false).1.reconnectAttempts = 3 ∧
    (3 : Nat) ≠ 0 :=
  ⟨rfl, rfl, by decide⟩

/-- C2 amended: connect never modifies the reconnect attempt counter.  A
successful constructor call leaves it exactly unchanged, and the failure path
only ever increases it (through handleReconnect); the counter is never reset
to 0. -/
theorem c2_amended_connect_counter (st : GatewayState) (ctorFails : Bool) :
    (connect st false).1.reconnectAttempts = st.reconnectAttempts ∧
    st.reconnectAttempts ≤ (connect st ctorFails).1.reconnectAttempts := by
  constructor
  · rfl
  · cases ctorFails
    · exact Nat.le_refl _
    · exact handleReconnect_counter st

/-- C9 counterexample: the socket error event handler only logs; it does not
run handleReconnect (which at the same state would have incremented the
attempt counter to 1 and scheduled a delayed connect), refuting the claim
that every socket error event is recovered via the reconnect policy. -/
theorem c9_counterexample :
    onError initialState = (initialState, [Effect.logStr "WebSocket error"]) ∧
    (onError initialState).1.reconnectAttempts = 0 ∧
    (handleReconnect initialState).1.reconnectAttempts = 1 ∧
    (handleReconnect initialState).2 =
      [Effect.logStr "Attempting to reconnect", Effect.wait 2000, Effect.invokeConnect] :=
  ⟨rfl, rfl, rfl, rfl⟩

/-- C9 amended: a connect constructor failure and a transport close event
both route into handleReconnect (prefixed by a log line), while a socket
error event is only logged; none of the three paths surfaces anything to the
caller beyond their listed effects. -/
theorem c9_amended_error_paths (st : GatewayState) :
    connect st true =
      ((handleReconnect st).1,
       Effect.logStr "Failed to connect to Discord Gateway" :: (handleReconnect st).2) ∧
    onClose st =
      ((handleReconnect st).1,
       Effect.logStr "Connection closed" :: (handleReconnect st).2) ∧
    onError st = (st, [Effect.logStr "WebSocket error"]) :=
  ⟨rfl, rfl, rfl⟩

/-- C1 counterexample: a frame with s equal to 5 stores sequence 5; a later
frame whose s slot is absent then resets the stored sequence to undefined,
because the strict test s !== null also passes for undefined.  This refutes
the claim that the sequence number, once set, is never reset to null or
absent by frame handling. -/
theorem c1_counterexample :
    ((handlePayload "tok" "linux"
        (JVal.jobj [("op", JVal.jnum 11), ("s", JVal.jnum 5)]) initialState).1).sequence
      = JVal.jnum 5 ∧
    ((handlePayload "tok" "linux" (JVal.jobj [("op", JVal.jnum 11)])
        ((handlePayload "tok" "linux"
          (JVal.jobj [("op", JVal.jnum 11), ("s", JVal.jnum 5)]) initialState).1)).1).sequence
      = JVal.undefined :=
  ⟨rfl, rfl⟩

/-- C1 amended: for every inbound object envelope, handlePayload stores the
value of the envelope s slot whenever that value is not strictly null,
regardless of opcode, and leaves the stored sequence unchanged when the slot
is null.  Since an absent slot destructures to undefined, which is not
strictly null, a frame without an s field resets the stored sequence to
undefined; the sequence is however never set to null. -/
theorem c1_amended_sequence_tracking (token os : String)
    (fs : List (String × JVal)) (st : GatewayState) :
    (handlePayload token os (JVal.jobj fs) st).1.sequence =
      (if (jsField (JVal.jobj fs) "s").isNull then st.sequence
       else jsField (JVal.jobj fs) "s") := by
  unfold handlePayload
  simp only [JVal.isNullish, Bool.false_eq_true, if_false]
  split
  · rw [handleHello_sequence]
    split <;> rfl
  · split
    · split <;> rfl
    · split
      · rw [handleInvalidSession_sequence]
        split <;> rfl
      · split
        · rw [handleDispatch_sequence]
          split <;> rfl
        · split <;> rfl

/-- C10: an inbound HELLO envelope whose d payload is null or absent makes
handlePayload throw a TypeError from the destructuring in handleHello, and
the message handler surfaces it as an unhandled asynchronous rejection: the
catch branch around JSON.parse does not fire (no parse failure log is
emitted), while a genuine parse failure is caught and logged without any
rejection. -/
theorem c10_hello_nullish_data (token os : String) (st : GatewayState) :
    ((onMessage token os (ParseResult.ok
        (JVal.jobj [("op", JVal.jnum 10), ("d", JVal.jnull)])) st).2.2
        = some JsErr.typeError ∧
     (onMessage token os (ParseResult.ok
        (JVal.jobj [("op", JVal.jnum 10), ("d", JVal.jnull)])) st).2.1 = []) ∧
    ((onMessage token os (ParseResult.ok
        (JVal.jobj [("op", JVal.jnum 10)])) st).2.2 = some JsErr.typeError ∧
     (onMessage token os (ParseResult.ok
        (JVal.jobj [("op", JVal.jnum 10)])) st).2.1 = []) ∧
    onMessage token os ParseResult.parseError st =
      (st, [Effect.logStr "Failed to parse message"], none) :=
  ⟨⟨rfl, rfl⟩, ⟨rfl, rfl⟩, rfl⟩

theorem startHeartbeat_active (i : JVal) (st : GatewayState) (hwf : wfTimers st) :
    (startHeartbeat i st).activeTimers = [(st.nextTimer, i)] := by
  unfold startHeartbeat
  simp [clearHeartbeatIfSet_active st hwf, clearHeartbeatIfSet_nextTimer]

theorem startHeartbeat_field (i : JVal) (st : GatewayState) :
    (startHeartbeat i st).heartbeatInterval = some st.nextTimer := by
  unfold startHeartbeat
  simp [clearHeartbeatIfSet_nextTimer]

theorem wsOpen_startHeartbeat (i : JVal) (st : GatewayState) :
    wsOpen (startHeartbeat i st) = wsOpen st := by
  unfold wsOpen
  rw [startHeartbeat_ws]

theorem identify_effects_open (token os : String) (st : GatewayState)
    (h : wsOpen st = true) :
    (identify token os st).2 = [Effect.send (identifyFrame token os)] := by
  unfold identify
  rw [if_pos h]

/-- The wire form of a HELLO envelope carrying a heartbeat interval. -/
def helloEnvelope (interval : Int) : JVal :=
  .jobj [("op", .jnum 10),
         ("d", .jobj [("heartbeat_interval", .jnum interval)]),
         ("s", .jnull), ("t", .jnull)]

/-- The wire form of an INVALID_SESSION envelope with payload d. -/
def invalidSessionEnvelope (d : JVal) : JVal :=
  .jobj [("op", .jnum 9), ("d", d), ("s", .jnull), ("t", .jnull)]

/-- A reachable mid-session state: open socket, sequence 42, one heartbeat
timer with handle 0 at period 41250 ms, two recorded reconnect attempts. -/
def runningState : GatewayState :=
  { ws := some .opened
    sequence := .jnum 42
    heartbeatInterval := some 0
    activeTimers := [(0, .jnum 41250)]
    nextTimer := 1
    sessionId := .jstr "abc123"
    reconnectAttempts := 2 }

/-- C5: handling a HELLO envelope with heartbeat interval N from any
well-formed state whose transport is open leaves exactly one active heartbeat
timer, scheduled at period N (any previously active timer is cancelled
first), and sends exactly one IDENTIFY frame, with no error thrown. -/
theorem c5_hello_single_timer_and_identify (token os : String) (N : Int)
    (st : GatewayState) (hwf : wfTimers st) (hopen : wsOpen st = true) :
    ((handlePayload token os (helloEnvelope N) st).1).activeTimers
        = [(st.nextTimer, JVal.jnum N)] ∧
    ((handlePayload token os (helloEnvelope N) st).1).heartbeatInterval
        = some st.nextTimer ∧
    (handlePayload token os (helloEnvelope N) st).2.1
        = [Effect.send (identifyFrame token os)] ∧
    (handlePayload token os (helloEnvelope N) st).2.2 = none := by
  have hred : handlePayload token os (helloEnvelope N) st
      = ((identify token os (startHeartbeat (JVal.jnum N) st)).1,
         (identify token os (startHeartbeat (JVal.jnum N) st)).2, none) := rfl
  rw [hred]
  refine ⟨?_, ?_, ?_, rfl⟩
  · rw [identify_state]
    exact startHeartbeat_active _ _ hwf
  · rw [identify_state]
    exact startHeartbeat_field _ _
  · exact identify_effects_open _ _ _ (by rw [wsOpen_startHeartbeat]; exact hopen)

/-- Witness for C5 at the running state, which already has an active timer:
afterwards exactly the fresh timer (handle 1) is active at period 41250 and
one IDENTIFY frame was sent. -/
theorem c5_hello_witness :
    ((handlePayload "tok" "linux" (helloEnvelope 41250) runningState).1).activeTimers
        = [(runningState.nextTimer, JVal.jnum 41250)] ∧
    ((handlePayload "tok" "linux" (helloEnvelope 41250) runningState).1).heartbeatInterval
        = some runningState.nextTimer ∧
    (handlePayload "tok" "linux" (helloEnvelope 41250) runningState).2.1
        = [Effect.send (identifyFrame "tok" "linux")] ∧
    (handlePayload "tok" "linux" (helloEnvelope 41250) runningState).2.2 = none :=
  c5_hello_single_timer_and_identify "tok" "linux" 41250 runningState
    (Or.inr ⟨0, JVal.jnum 41250, rfl, rfl⟩) rfl

/-- C6: handling an INVALID_SESSION envelope from any well-formed state stops
the heartbeat timer, leaves the reconnect attempt counter untouched whatever
its value, and its effects are exactly a log line, a fixed 5000 ms wait and a
re-invocation of the full connect procedure (no backoff computation). -/
theorem c6_invalid_session_fixed_delay (token os : String) (d : JVal)
    (st : GatewayState) (hwf : wfTimers st) :
    ((handlePayload token os (invalidSessionEnvelope d) st).1).activeTimers = [] ∧
    ((handlePayload token os (invalidSessionEnvelope d) st).1).reconnectAttempts
        = st.reconnectAttempts ∧
    (handlePayload token os (invalidSessionEnvelope d) st).2.1
        = [Effect.logStr "Session invalidated", Effect.wait 5000, Effect.invokeConnect] ∧
    (handlePayload token os (invalidSessionEnvelope d) st).2.2 = none := by
  have hred : handlePayload token os (invalidSessionEnvelope d) st
      = (clearHeartbeatIfSet st,
         [Effect.logStr "Session invalidated", Effect.wait 5000, Effect.invokeConnect],
         none) := rfl
  rw [hred]
  exact ⟨clearHeartbeatIfSet_active st hwf, clearHeartbeatIfSet_reconnectAttempts st,
         rfl, rfl⟩

/-- Witness for C6 at the running state: the timer is stopped, the counter
stays at 2 and the effects are the fixed 5000 ms wait followed by connect. -/
theorem c6_invalid_session_witness :
    ((handlePayload "tok" "linux" (invalidSessionEnvelope JVal.jnull) runningState).1).activeTimers = [] ∧
    ((handlePayload "tok" "linux" (invalidSessionEnvelope JVal.jnull) runningState).1).reconnectAttempts
        = runningState.reconnectAttempts ∧
    (handlePayload "tok" "linux" (invalidSessionEnvelope JVal.jnull) runningState).2.1
        = [Effect.logStr "Session invalidated", Effect.wait 5000, Effect.invokeConnect] ∧
    (handlePayload "tok" "linux" (invalidSessionEnvelope JVal.jnull) runningState).2.2 = none :=
  c6_invalid_session_fixed_delay "tok" "linux" JVal.jnull runningState
    (Or.inr ⟨0, JVal.jnum 41250, rfl, rfl⟩)

/-- C7: after disconnect from any well-formed state, no heartbeat timer is
active, a present socket has been moved to the closing state, and both the
reconnect attempt counter and the stored sequence number are unchanged. -/
theorem c7_disconnect_state (st : GatewayState) (hwf : wfTimers st) :
    (disconnect st).1.activeTimers = [] ∧
    (disconnect st).1.ws = st.ws.map (fun _ => ReadyState.closing) ∧
    (disconnect st).1.reconnectAttempts = st.reconnectAttempts ∧
    (disconnect st).1.sequence = st.sequence := by
  unfold disconnect
  split
  · rename_i w heq
    have hws : st.ws = some w := by rw [← clearHeartbeatIfSet_ws]; exact heq
    refine ⟨?_, ?_, ?_, ?_⟩
    · simpa using clearHeartbeatIfSet_active st hwf
    · simp [hws]
    · simpa using clearHeartbeatIfSet_reconnectAttempts st
    · simpa using clearHeartbeatIfSet_sequence st
  · rename_i heq
    have hws : st.ws = none := by rw [← clearHeartbeatIfSet_ws]; exact heq
    refine ⟨clearHeartbeatIfSet_active st hwf, ?_,
            clearHeartbeatIfSet_reconnectAttempts st, clearHeartbeatIfSet_sequence st⟩
    rw [clearHeartbeatIfSet_ws, hws]
    rfl

/-- Witness for C7 at the running state: the timer is gone, the socket is
closing, and the counter and sequence are untouched. -/
theorem c7_disconnect_witness :
    (disconnect runningState).1.activeTimers = [] ∧
    (disconnect runningState).1.ws
        = runningState.ws.map (fun _ => ReadyState.closing) ∧
    (disconnect runningState).1.reconnectAttempts = runningState.reconnectAttempts ∧
    (disconnect runningState).1.sequence = runningState.sequence :=
  c7_disconnect_state runningState (Or.inr ⟨0, JVal.jnum 41250, rfl, rfl⟩)

/-! The timer bookkeeping predicate wfTimers holds initially and is preserved
by every operation of the class, so the well-formedness hypotheses of the
theorems above hold in every reachable state. -/

theorem wfTimers_initial : wfTimers initialState :=
  Or.inl rfl

theorem wfTimers_clearHeartbeatIfSet (st : GatewayState) (hwf : wfTimers st) :
    wfTimers (clearHeartbeatIfSet st) :=
  Or.inl (clearHeartbeatIfSet_active st hwf)

theorem wfTimers_startHeartbeat (i : JVal) (st : GatewayState) (hwf : wfTimers st) :
    wfTimers (startHeartbeat i st) :=
  Or.inr ⟨st.nextTimer, i, startHeartbeat_active i st hwf, startHeartbeat_field i st⟩

theorem disconnect_active (st : GatewayState) (hwf : wfTimers st) :
    (disconnect st).1.activeTimers = [] := by
  unfold disconnect
  split
  · simpa using clearHeartbeatIfSet_active st hwf
  · exact clearHeartbeatIfSet_active st hwf

theorem wfTimers_disconnect (st : GatewayState) (hwf : wfTimers st) :
    wfTimers (disconnect st).1 :=
  Or.inl (disconnect_active st hwf)

theorem wfTimers_handleReconnect (st : GatewayState) (hwf : wfTimers st) :
    wfTimers (handleReconnect st).1 := by
  unfold handleReconnect
  split
  · exact hwf
  · exact hwf

theorem wfTimers_connect (st : GatewayState) (ctorFails : Bool) (hwf : wfTimers st) :
    wfTimers (connect st ctorFails).1 := by
  unfold connect
  split
  · exact wfTimers_handleReconnect st hwf
  · exact hwf

theorem wfTimers_sendHeartbeat (st : GatewayState) (hwf : wfTimers st) :
    wfTimers (sendHeartbeat st).1 := by
  unfold sendHeartbeat
  split
  · exact hwf
  · exact hwf

theorem wfTimers_seqUpdate (st : GatewayState) (sv : JVal) (hwf : wfTimers st) :
    wfTimers (if sv.isNull then st else { st with sequence := sv }) := by
  split
  · exact hwf
  · exact hwf

theorem wfTimers_handlePayload (token os : String) (p : JVal) (st : GatewayState)
    (hwf : wfTimers st) :
    wfTimers (handlePayload token os p st).1 := by
  simp only [handlePayload]
  split
  · exact hwf
  · have hwf1 := wfTimers_seqUpdate st (jsField p "s") hwf
    generalize (if (jsField p "s").isNull = true then st
        else { st with sequence := jsField p "s" }) = st1 at hwf1 ⊢
    split
    · simp only [handleHello]
      split
      · exact hwf1
      · rw [identify_state]
        exact wfTimers_startHeartbeat _ _ hwf1
    · split
      · exact hwf1
      · split
        · exact wfTimers_clearHeartbeatIfSet _ hwf1
        · split
          · simp only [handleDispatch]
            split
            · split
              · exact hwf1
              · exact hwf1
            · exact hwf1
          · exact hwf1
